import Mathlib

/-!
Shallow embedding of the host-aware HTTP reverse proxy implemented in
`src/index.js`, together with theorems settling the specification claims.

Conventions of the embedding:
* JS objects used as string-keyed tables become association lists
  (`List (String × String)`), preserving the source's insertion order,
  since `Object.entries` iterates keys in that order.
* JS string operations (`startsWith`, `substring`, `.length`) operate on
  code units; all configured strings are ASCII, so we model them on the
  character sequence `String.data`.
* Node's `url.parse(path).pathname` on a server request path is the part
  of the path before the first `?` or `#`.
* Stateful response objects become explicit state records; each Node
  event handler becomes a state-transition function.
-/

namespace PaymentProxy

/-- Header mapping: association list of header name/value pairs.  Keys of a
JS object are unique, but none of the theorems below require uniqueness. -/
abbrev Headers := List (String × String)

/-- `REDIRECTION_MAP` constant, src/index.js lines 9-12. -/
def REDIRECTION_MAP : List (String × String) :=
  [("pay.v1-domain.com", "https://api.myapp.com"),
   ("pay.v2-domain.com", "https://api.myapp.com")]

/-- Per-gateway configuration record, the values of `PAYMENT_GATEWAYS`. -/
structure GatewayConfig where
  target : String
  host : String
deriving DecidableEq, Repr

/-- `PAYMENT_GATEWAYS` constant, src/index.js lines 14-27, in source order. -/
def PAYMENT_GATEWAYS : List (String × GatewayConfig) :=
  [("vandar", { target := "https://ipg.vandar.io", host := "ipg.vandar.io" }),
   ("zibal", { target := "https://gateway.zibal.ir", host := "gateway.zibal.ir" }),
   ("zarinpal", { target := "https://payment.zarinpal.com", host := "payment.zarinpal.com" })]

/-- `HOST_CONFIG` constant, src/index.js lines 29-32. -/
def HOST_CONFIG : List (String × String) :=
  [("pay.v1-domain.com", "https://v1-domain.com/"),
   ("pay.v2-domain.com", "https://v1-domain.com/")]

/-- `HOP_BY_HOP_HEADERS` constant, src/index.js lines 34-42. -/
def HOP_BY_HOP_HEADERS : List String :=
  ["connection", "upgrade", "proxy-authorization", "proxy-authenticate",
   "te", "trailer", "transfer-encoding"]

/-- Exact own-key lookup in an association list (the own properties of a
JS object literal). -/
def lookup : List (String × String) → String → Option String
  | [], _ => none
  | kv :: rest, key => if kv.1 = key then some kv.2 else lookup rest key

/-- Members of `Object.prototype`, inherited by every JS object literal,
paired with their JS string coercion.  V8 prints a native function as
the text `function name() ... native code ...`; the `constructor` property
is the `Object` function itself (so its printed name is `Object`), and
`__proto__` resolves to the `Object.prototype` object, whose coercion is
`[object Object]`. -/
def OBJECT_PROTOTYPE_MEMBERS : List (String × String) :=
  [("constructor", "function Object() \x7b [native code] \x7d"),
   ("hasOwnProperty", "function hasOwnProperty() \x7b [native code] \x7d"),
   ("isPrototypeOf", "function isPrototypeOf() \x7b [native code] \x7d"),
   ("propertyIsEnumerable", "function propertyIsEnumerable() \x7b [native code] \x7d"),
   ("toLocaleString", "function toLocaleString() \x7b [native code] \x7d"),
   ("toString", "function toString() \x7b [native code] \x7d"),
   ("valueOf", "function valueOf() \x7b [native code] \x7d"),
   ("__defineGetter__", "function __defineGetter__() \x7b [native code] \x7d"),
   ("__defineSetter__", "function __defineSetter__() \x7b [native code] \x7d"),
   ("__lookupGetter__", "function __lookupGetter__() \x7b [native code] \x7d"),
   ("__lookupSetter__", "function __lookupSetter__() \x7b [native code] \x7d"),
   ("__proto__", "[object Object]")]

/-- The JS values a property access on one of the configuration tables can
produce: `undefined` on a miss, the own-entry string, or an inherited
`Object.prototype` member (a function or object), recorded by its string
coercion. -/
inductive JsValue where
  | undef : JsValue
  | str (s : String) : JsValue
  | protoRef (coercion : String) : JsValue
deriving DecidableEq, Repr

/-- JS truthiness of such a value: `undefined` is falsy, a string is truthy
exactly when non-empty, an inherited function or object is truthy. -/
def JsValue.truthy : JsValue → Bool
  | .undef => false
  | .str s => s != ""
  | .protoRef _ => true

/-- JS string coercion of such a value. -/
def JsValue.coerceString : JsValue → String
  | .undef => "undefined"
  | .str s => s
  | .protoRef c => c

/-- JS property access `table[key]` on an object literal: an own key wins;
otherwise the access falls back to the `Object.prototype` chain; otherwise
the result is `undefined`. -/
def jsGet (table : List (String × String)) (key : String) : JsValue :=
  match lookup table key with
  | some v => JsValue.str v
  | none =>
    match lookup OBJECT_PROTOTYPE_MEMBERS key with
    | some c => JsValue.protoRef c
    | none => JsValue.undef

/-- `sanitizeHeaders`, src/index.js lines 50-54: copy the mapping and
delete each listed hop-by-hop name.  JS `delete obj[k]` removes only the
exactly-matching key, so the filter compares names exactly. -/
def sanitizeHeaders (headers : Headers) : Headers :=
  headers.filter (fun kv => !HOP_BY_HOP_HEADERS.contains kv.1)

/-- JS `String.prototype.startsWith` on code units. -/
def strStartsWith (s pre : String) : Bool :=
  pre.data.isPrefixOf s.data

/-- JS `String.prototype.substring(start)` on code units. -/
def jsSubstring (s : String) (start : Nat) : String :=
  ⟨s.data.drop start⟩

/-- `url.parse(originalPath).pathname` for a server request path: the part
before the first `?` or `#`. -/
def pathnameOf (p : String) : String :=
  ⟨p.data.takeWhile (fun c => !(c == '?' || c == '#'))⟩

/-- The gateway-prefix scan of src/index.js lines 243-246: iterate the
configured gateways in order, returning the first key `g` such that the
pathname starts with `"/" ++ g ++ "/"`. -/
def findGateway : List (String × GatewayConfig) → String → Option String
  | [], _ => none
  | g :: rest, pathname =>
    if strStartsWith pathname ("/" ++ g.1 ++ "/") then some g.1
    else findGateway rest pathname

/-- Routing decisions of the classifier (spec §4.2). -/
inductive Route where
  | corsPreflight : Route
  | redirect (targetUrl : String) : Route
  | gatewayProxy (gateway : String) (path : String) (referrer : String) : Route
  | reject (statusCode : Nat) (message : String) : Route
deriving DecidableEq, Repr

/-- Request classification, `handleRequest` src/index.js lines 219-274.
`host = none` models an absent Host header.  The validation at line 232 is
`!requestHost || !HOST_CONFIG[requestHost]`: JS falsiness of the raw header
value (absent or empty) or of the property access — and a property access
on an object literal consults the `Object.prototype` chain after the own
keys, so inherited member names also pass.  The referrer (line 240) is the
accessed value, carried here by its string coercion.  The prefix test uses
the parsed `pathname` while the stripped remainder is cut from
`originalPath`, exactly as in the source (lines 246-247); the redirect
target (line 266) is `REDIRECTION_MAP[requestHost] + originalPath` under
the same property-access and coercion semantics. -/
def classify (method : String) (host : Option String) (originalPath : String) : Route :=
  if method = "OPTIONS" then Route.corsPreflight
  else
    match host with
    | none => Route.reject 400 "Bad Request: Unrecognized host"
    | some requestHost =>
      if requestHost = "" then Route.reject 400 "Bad Request: Unrecognized host"
      else
        let hv := jsGet HOST_CONFIG requestHost
        if hv.truthy then
          let referrer := hv.coerceString
          let pathname := pathnameOf originalPath
          match findGateway PAYMENT_GATEWAYS pathname with
          | some gateway =>
            let targetPath := jsSubstring originalPath (("/" ++ gateway ++ "/").length - 1)
            let finalPath := if strStartsWith targetPath "/" then targetPath
                             else "/" ++ targetPath
            Route.gatewayProxy gateway finalPath referrer
          | none =>
            let tb := jsGet REDIRECTION_MAP requestHost
            if tb.truthy then Route.redirect (tb.coerceString ++ originalPath)
            else Route.reject 400 "Bad Request: No redirect target configured"
        else Route.reject 400 "Bad Request: Unrecognized host"

/-- A response as written to the inbound connection: status line, headers,
body. -/
structure WrittenResponse where
  statusCode : Nat
  headers : Headers
  body : String
deriving DecidableEq, Repr

/-- `handleCorsPreflightRequest`, src/index.js lines 102-109: status 200,
the three CORS headers, empty body (`res.end()` with no argument). -/
def handleCorsPreflightRequest : WrittenResponse :=
  { statusCode := 200
    headers := [("Access-Control-Allow-Origin", "*"),
                ("Access-Control-Allow-Methods", "GET, POST, PUT, DELETE, OPTIONS"),
                ("Access-Control-Allow-Headers", "Content-Type, Authorization")]
    body := "" }

/-- `handleRedirect`, src/index.js lines 86-99: status 302 with `Location`,
`Content-Type: text/plain` and the CORS allow-origin header, and a short
plain-text body. -/
def handleRedirect (targetUrl : String) : WrittenResponse :=
  { statusCode := 302
    headers := [("Location", targetUrl), ("Content-Type", "text/plain"),
                ("Access-Control-Allow-Origin", "*")]
    body := "Redirecting to " ++ targetUrl }

/-- State of an inbound response object (`res`).  `headersSent` is Node's
`res.headersSent` (true once a status line and headers have been written);
`destroyed` is `res.destroyed` (the underlying connection was torn down);
`written` records, in order, the writes that actually took effect. -/
structure ResState where
  headersSent : Bool
  destroyed : Bool
  written : List WrittenResponse
deriving DecidableEq, Repr

/-- `sendError`, src/index.js lines 111-116: a silent no-op when headers
were already sent or the connection is destroyed, otherwise it writes a
plain-text error response.  Modelled as a total state transition, so it
never raises. -/
def sendError (res : ResState) (statusCode : Nat) (message : String) : ResState :=
  if res.headersSent || res.destroyed then res
  else
    { headersSent := true
      destroyed := res.destroyed
      written := res.written ++
        [{ statusCode := statusCode
           headers := [("Content-Type", "text/plain")]
           body := message }] }

/-- State of one gateway-proxy forwarding attempt: the inbound response
and whether the outbound request (`proxyReq`) has been destroyed. -/
structure ProxyConn where
  res : ResState
  proxyReqDestroyed : Bool
deriving DecidableEq, Repr

/-- The `timeout` event handler of `proxyRequest`, src/index.js lines
183-190: destroy the outbound request, then `sendError 504`. -/
def onProxyTimeout (s : ProxyConn) : ProxyConn :=
  { proxyReqDestroyed := true
    res := sendError s.res 504 "Gateway Timeout" }

/-- The outbound-connection `error` handler of `proxyRequest`,
src/index.js lines 174-181: `sendError 500`. -/
def onProxyReqError (s : ProxyConn) : ProxyConn :=
  { s with res := sendError s.res 500 "Internal Server Error" }

/-- The upstream-response `error` handler of `proxyRequest`,
src/index.js lines 163-170: `sendError 500`. -/
def onProxyResError (s : ProxyConn) : ProxyConn :=
  { s with res := sendError s.res 500 "Internal Server Error" }

/-- JS property assignment `headers[k] = v` on an object-as-table: replace
the value at an existing key, else append the new pair. -/
def setHeader : Headers → String → String → Headers
  | [], k, v => [(k, v)]
  | kv :: rest, k, v =>
    if kv.1 = k then (k, v) :: rest else kv :: setHeader rest k v

/-- Response-header construction for a proxied response, src/index.js
lines 140-145: sanitize the upstream headers, then set the three CORS
headers. -/
def buildProxyResponseHeaders (upstreamHeaders : Headers) : Headers :=
  setHeader
    (setHeader
      (setHeader (sanitizeHeaders upstreamHeaders)
        "Access-Control-Allow-Origin" "*")
      "Access-Control-Allow-Methods" "GET, POST, PUT, DELETE, OPTIONS")
    "Access-Control-Allow-Headers" "Content-Type, Authorization"

/-- The `res.writeHead(proxyRes.statusCode, responseHeaders)` call of
src/index.js line 147: status code copied from upstream, headers built by
`buildProxyResponseHeaders`. -/
def proxyWriteHead (upstreamStatus : Nat) (upstreamHeaders : Headers) : Nat × Headers :=
  (upstreamStatus, buildProxyResponseHeaders upstreamHeaders)

/-- State of the shutdown machinery of `setupGracefulShutdown`,
src/index.js lines 313-337.  `pendingTimers` counts scheduled
forced-shutdown timers, `pendingCloseCallbacks` counts `server.close`
callbacks not yet invoked, `exitCode` is set once `process.exit` runs. -/
structure ShutdownState where
  draining : Bool
  pendingTimers : Nat
  pendingCloseCallbacks : Nat
  exitCode : Option Nat
deriving DecidableEq, Repr

/-- The state before any signal arrives. -/
def initialShutdownState : ShutdownState :=
  { draining := false, pendingTimers := 0, pendingCloseCallbacks := 0, exitCode := none }

/-- Events driving the shutdown machinery: a termination signal
(SIGINT/SIGTERM), the `server.close` callback firing without or with an
error, and a forced-shutdown timer firing. -/
inductive ShutdownEvent where
  | signal : ShutdownEvent
  | closeOk : ShutdownEvent
  | closeErr : ShutdownEvent
  | timerFire : ShutdownEvent
deriving DecidableEq, Repr

/-- One step of the shutdown machinery.  After `process.exit` nothing runs.
The `shutdown` function (lines 314-333) has no re-entry guard: every
signal schedules a fresh timer and issues a fresh `server.close` call.
The close callback clears its own timer and exits 0 (or 1 on error); a
timer that fires forces exit 1. -/
def stepShutdown (s : ShutdownState) : ShutdownEvent → ShutdownState
  | .signal =>
    if s.exitCode.isSome then s
    else { s with draining := true
                  pendingTimers := s.pendingTimers + 1
                  pendingCloseCallbacks := s.pendingCloseCallbacks + 1 }
  | .closeOk =>
    if s.exitCode.isSome ∨ s.pendingCloseCallbacks = 0 then s
    else { s with pendingCloseCallbacks := s.pendingCloseCallbacks - 1
                  pendingTimers := s.pendingTimers - 1
                  exitCode := some 0 }
  | .closeErr =>
    if s.exitCode.isSome ∨ s.pendingCloseCallbacks = 0 then s
    else { s with pendingCloseCallbacks := s.pendingCloseCallbacks - 1
                  pendingTimers := s.pendingTimers - 1
                  exitCode := some 1 }
  | .timerFire =>
    if s.exitCode.isSome ∨ s.pendingTimers = 0 then s
    else { s with pendingTimers := s.pendingTimers - 1
                  exitCode := some 1 }

/-- Run the shutdown machinery over a sequence of events from the initial
state. -/
def runShutdown (events : List ShutdownEvent) : ShutdownState :=
  events.foldl stepShutdown initialShutdownState

/-- Names of the three CORS headers set on every proxied response,
src/index.js lines 141-145. -/
def CORS_KEYS : List String :=
  ["Access-Control-Allow-Origin", "Access-Control-Allow-Methods",
   "Access-Control-Allow-Headers"]

/-! ### Helper lemmas -/

/-- An own-key lookup that succeeds returns an entry of the table. -/
theorem lookup_mem : ∀ (table : List (String × String)) (key v : String),
    lookup table key = some v → (key, v) ∈ table := by
  intro table
  induction table with
  | nil => intro key v h; cases h
  | cons kv rest ih =>
    intro key v h
    by_cases he : kv.1 = key
    · rw [lookup, if_pos he] at h
      have hv : kv.2 = v := Option.some.inj h
      exact List.mem_cons.mpr (Or.inl (by cases kv; cases he; cases hv; rfl))
    · rw [lookup, if_neg he] at h
      exact List.mem_cons_of_mem _ (ih key v h)

/-- A host that passes the `HOST_CONFIG` own-key lookup is non-empty and
its referrer value is the non-empty configured string. -/
theorem lookup_HOST_CONFIG_spec {h r : String}
    (hl : lookup HOST_CONFIG h = some r) : h ≠ "" ∧ r ≠ "" := by
  have hmem := lookup_mem HOST_CONFIG h r hl
  rw [HOST_CONFIG] at hmem
  rcases List.mem_cons.mp hmem with he | hmem
  · injection he with h1 h2
    subst h1; subst h2; exact ⟨by decide, by decide⟩
  rcases List.mem_cons.mp hmem with he | hmem
  · injection he with h1 h2
    subst h1; subst h2; exact ⟨by decide, by decide⟩
  · cases hmem

/-- A redirect base produced by the `REDIRECTION_MAP` own-key lookup is
the non-empty configured string. -/
theorem lookup_REDIRECTION_MAP_nonempty {h b : String}
    (hl : lookup REDIRECTION_MAP h = some b) : b ≠ "" := by
  have hmem := lookup_mem REDIRECTION_MAP h b hl
  rw [REDIRECTION_MAP] at hmem
  rcases List.mem_cons.mp hmem with he | hmem
  · injection he with h1 h2
    subst h2; decide
  rcases List.mem_cons.mp hmem with he | hmem
  · injection he with h1 h2
    subst h2; decide
  · cases hmem

/-- Any request whose host value misses both the own keys of the host
table and the inherited `Object.prototype` member names is rejected with
400, whatever the path. -/
theorem classify_reject_of_no_referrer (method : String) (host : Option String)
    (path : String) (hm : method ≠ "OPTIONS")
    (hh : ∀ h, host = some h →
      lookup HOST_CONFIG h = none ∧ lookup OBJECT_PROTOTYPE_MEMBERS h = none) :
    classify method host path = Route.reject 400 "Bad Request: Unrecognized host" := by
  cases host with
  | none => simp [classify, hm]
  | some h =>
    obtain ⟨hc, hp⟩ := hh h rfl
    by_cases h0 : h = ""
    · simp [classify, hm, h0]
    · have hv : jsGet HOST_CONFIG h = JsValue.undef := by simp [jsGet, hc, hp]
      simp [classify, hm, h0, hv, JsValue.truthy]

/-! ### Claim theorems -/

/-- C3 counterexample: the host check is a JS truthiness test on the
property access `HOST_CONFIG[requestHost]`, which consults the
`Object.prototype` chain.  The Host value `constructor` is NOT a key of
the host policy table, yet it passes validation (the inherited `Object`
constructor function is truthy) and the request is answered with a 302
redirect built from the function's string coercion — not rejected. -/
theorem proto_host_not_rejected :
    lookup HOST_CONFIG "constructor" = none ∧
    (jsGet HOST_CONFIG "constructor").truthy = true ∧
    classify "GET" (some "constructor") "/dashboard" ≠
      Route.reject 400 "Bad Request: Unrecognized host" ∧
    classify "GET" (some "constructor") "/dashboard" =
      Route.redirect ("function Object() \x7b [native code] \x7d" ++ "/dashboard") :=
  ⟨by decide, by decide, by decide, by decide⟩

/-- C3 (amended): for every request whose method is not OPTIONS and whose
Host header is absent, or whose value is neither a key of the host policy
table nor the name of a property inherited from `Object.prototype`,
classification yields `Reject 400` regardless of path, before the
gateway-prefix rule and the redirect rule are evaluated — no gateway proxy
and no redirect is ever produced for such a request.  (Hosts named after
`Object.prototype` members, such as `constructor` or `toString`, slip
through the truthiness-based validation.) -/
theorem unknown_host_rejected_first (method : String) (host : Option String)
    (path : String) (hm : method ≠ "OPTIONS")
    (hh : ∀ h, host = some h →
      lookup HOST_CONFIG h = none ∧ lookup OBJECT_PROTOTYPE_MEMBERS h = none) :
    classify method host path = Route.reject 400 "Bad Request: Unrecognized host" :=
  classify_reject_of_no_referrer method host path hm hh

/-- Witness for C3 (amended) at a concrete input: a GET for a
gateway-looking path from an unknown host is rejected with 400. -/
theorem unknown_host_rejected_first_witness :
    classify "GET" (some "evil.example.com") "/vandar/v1/ipgs" =
      Route.reject 400 "Bad Request: Unrecognized host" :=
  unknown_host_rejected_first "GET" (some "evil.example.com") "/vandar/v1/ipgs"
    (by decide) (by intro h he; cases he; exact ⟨by decide, by decide⟩)

/-- C4: every OPTIONS request, whatever the host and path, is classified as
a CORS preflight, and the preflight response is status 200 with exactly the
three CORS headers and an empty body. -/
theorem options_always_preflight (host : Option String) (path : String) :
    classify "OPTIONS" host path = Route.corsPreflight ∧
    handleCorsPreflightRequest.statusCode = 200 ∧
    handleCorsPreflightRequest.headers =
      [("Access-Control-Allow-Origin", "*"),
       ("Access-Control-Allow-Methods", "GET, POST, PUT, DELETE, OPTIONS"),
       ("Access-Control-Allow-Headers", "Content-Type, Authorization")] ∧
    handleCorsPreflightRequest.body = "" :=
  ⟨by simp [classify], rfl, rfl, rfl⟩

/-- C5: `sendError` is at-most-once and non-throwing.  If headers were
already sent or the connection is destroyed it is a no-op, and a second
`sendError` after a first one never changes the state again (so only the
first write takes effect).  Totality of the Lean function reflects that the
guarded source function never raises. -/
theorem sendError_at_most_once (res : ResState) (c₁ c₂ : Nat) (m₁ m₂ : String) :
    (res.headersSent = true ∨ res.destroyed = true → sendError res c₁ m₁ = res) ∧
    sendError (sendError res c₁ m₁) c₂ m₂ = sendError res c₁ m₁ := by
  constructor
  · intro h
    rcases h with h | h <;> simp [sendError, h]
  · by_cases h : res.headersSent || res.destroyed
    · simp [sendError, h]
    · simp [sendError, h]

/-- Witness for C5 at a concrete state: after a partial streamed write
(headers already sent), `sendError` leaves the state unchanged. -/
theorem sendError_at_most_once_witness :
    sendError { headersSent := true, destroyed := false, written := [] } 504 "Gateway Timeout" =
      { headersSent := true, destroyed := false, written := [] } :=
  (sendError_at_most_once { headersSent := true, destroyed := false, written := [] }
    504 504 "Gateway Timeout" "Gateway Timeout").1 (Or.inl rfl)

/-- C10 counterexample: host validation is not an exact lookup in the host
policy table.  The Host value `toString` is not a key of `HOST_CONFIG`,
yet the property access resolves to the inherited `Object.prototype`
method, which is truthy, so the request passes validation instead of being
rejected with 400. -/
theorem host_lookup_not_exact :
    lookup HOST_CONFIG "toString" = none ∧
    classify "POST" (some "toString") "/a" ≠
      Route.reject 400 "Bad Request: Unrecognized host" :=
  ⟨by decide, by decide⟩

/-- C10 (amended): host validation is a truthiness test on the JS property
access `HOST_CONFIG[host]`: own keys pass under exact, case-sensitive
comparison, and the names of properties inherited from `Object.prototype`
(such as `toString`) also pass; every other value — in particular one
differing from a configured entry only by letter casing or by an explicit
port suffix — is treated as unknown and rejected with 400. -/
theorem host_lookup_exact (method path : String) (hm : method ≠ "OPTIONS") :
    (∀ h : String, lookup HOST_CONFIG h = none →
      lookup OBJECT_PROTOTYPE_MEMBERS h = none →
      classify method (some h) path = Route.reject 400 "Bad Request: Unrecognized host") ∧
    classify method (some "Pay.v1-domain.com") path =
      Route.reject 400 "Bad Request: Unrecognized host" ∧
    classify method (some "PAY.V1-DOMAIN.COM") path =
      Route.reject 400 "Bad Request: Unrecognized host" ∧
    classify method (some "pay.v1-domain.com:3000") path =
      Route.reject 400 "Bad Request: Unrecognized host" ∧
    (jsGet HOST_CONFIG "toString").truthy = true := by
  have base : ∀ h : String, lookup HOST_CONFIG h = none →
      lookup OBJECT_PROTOTYPE_MEMBERS h = none →
      classify method (some h) path = Route.reject 400 "Bad Request: Unrecognized host" :=
    fun h hl hp => classify_reject_of_no_referrer method (some h) path hm
      (fun h₂ he => by cases he; exact ⟨hl, hp⟩)
  exact ⟨base, base _ (by decide) (by decide), base _ (by decide) (by decide),
    base _ (by decide) (by decide), by decide⟩

/-- Witness for C10 (amended) at a concrete input: the exactly-cased host
with an explicit port is rejected. -/
theorem host_lookup_exact_witness :
    classify "POST" (some "pay.v1-domain.com:3000") "/vandar/v1/ipgs" =
      Route.reject 400 "Bad Request: Unrecognized host" :=
  (host_lookup_exact "POST" "/vandar/v1/ipgs" (by decide)).2.2.2.1

/-- C2 counterexample: header removal is case-sensitive, not
case-insensitive.  The entry `("Connection", "keep-alive")` carries the
hop-by-hop name `connection` in a different letter-casing, yet
`sanitizeHeaders` keeps it, refuting the claim at this input. -/
theorem sanitizeHeaders_not_case_insensitive :
    sanitizeHeaders [("Connection", "keep-alive")] = [("Connection", "keep-alive")] ∧
    "Connection".data.map Char.toLower = "connection".data ∧
    "connection" ∈ HOP_BY_HOP_HEADERS := by
  refine ⟨by decide, by decide, by decide⟩

/-- Characterization of `sanitizeHeaders`: the output is a sublist of the
input keeping exactly the entries whose name is not (literally) a
hop-by-hop name. -/
theorem sanitizeHeaders_spec (headers : Headers) :
    List.Sublist (sanitizeHeaders headers) headers ∧
    (∀ kv, kv ∈ headers → kv.1 ∉ HOP_BY_HOP_HEADERS → kv ∈ sanitizeHeaders headers) ∧
    (∀ kv, kv ∈ sanitizeHeaders headers → kv.1 ∉ HOP_BY_HOP_HEADERS) := by
  refine ⟨List.filter_sublist headers, ?_, ?_⟩
  · intro kv hmem hname
    refine List.mem_filter.mpr ⟨hmem, ?_⟩
    simpa [List.contains] using hname
  · intro kv hmem
    have h := (List.mem_filter.mp hmem).2
    simpa [List.contains] using h

/-- C2 (amended): `sanitizeHeaders` returns a copy of the mapping in which
every entry whose name exactly equals one of the seven hop-by-hop names is
removed and every other entry is preserved unchanged, in order; the input
is not mutated (the function is pure) and it never fails (it is total). -/
theorem sanitizeHeaders_exact_removal (headers : Headers) :
    List.Sublist (sanitizeHeaders headers) headers ∧
    (∀ kv, kv ∈ headers → kv.1 ∉ HOP_BY_HOP_HEADERS → kv ∈ sanitizeHeaders headers) ∧
    (∀ kv, kv ∈ sanitizeHeaders headers → kv.1 ∉ HOP_BY_HOP_HEADERS) :=
  sanitizeHeaders_spec headers

/-- Witness for C2 (amended) at a concrete mapping: an ordinary header
survives sanitization of a mapping that also holds hop-by-hop entries. -/
theorem sanitizeHeaders_exact_removal_witness :
    ("accept", "application/json") ∈
      sanitizeHeaders [("connection", "close"), ("accept", "application/json"), ("te", "x")] :=
  (sanitizeHeaders_exact_removal
      [("connection", "close"), ("accept", "application/json"), ("te", "x")]).2.1
    ("accept", "application/json") (by decide) (by decide)

/-- Setting a header always yields a mapping holding the new pair. -/
theorem mem_setHeader_self (hs : Headers) (k v : String) :
    (k, v) ∈ setHeader hs k v := by
  induction hs with
  | nil => simp [setHeader]
  | cons kv rest ih =>
    by_cases h : kv.1 = k
    · simp [setHeader, h]
    · simp only [setHeader, if_neg h]
      exact List.mem_cons_of_mem kv ih

/-- Setting a header keeps every pair whose name differs from the one
being set. -/
theorem mem_setHeader_of_ne (hs : Headers) (k v : String) (kv : String × String)
    (hmem : kv ∈ hs) (hne : kv.1 ≠ k) : kv ∈ setHeader hs k v := by
  induction hs with
  | nil => cases hmem
  | cons kv₀ rest ih =>
    by_cases h : kv₀.1 = k
    · rcases List.mem_cons.mp hmem with he | hr
      · subst he; exact absurd h hne
      · simp only [setHeader, if_pos h]
        exact List.mem_cons_of_mem _ hr
    · rcases List.mem_cons.mp hmem with he | hr
      · subst he; simp [setHeader, h]
      · simp only [setHeader, if_neg h]
        exact List.mem_cons_of_mem _ (ih hr)

/-- Every pair of the updated mapping is the new pair or came from the
original mapping. -/
theorem mem_of_mem_setHeader (hs : Headers) (k v : String) (kv : String × String)
    (h : kv ∈ setHeader hs k v) : kv = (k, v) ∨ kv ∈ hs := by
  induction hs with
  | nil => simpa [setHeader] using h
  | cons kv₀ rest ih =>
    by_cases h0 : kv₀.1 = k
    · simp only [setHeader, if_pos h0] at h
      rcases List.mem_cons.mp h with he | hr
      · exact Or.inl he
      · exact Or.inr (List.mem_cons_of_mem _ hr)
    · simp only [setHeader, if_neg h0] at h
      rcases List.mem_cons.mp h with he | hr
      · exact Or.inr (he ▸ List.mem_cons_self _ _)
      · rcases ih hr with hl | hl
        · exact Or.inl hl
        · exact Or.inr (List.mem_cons_of_mem _ hl)

/-- C7: for every proxied response, the status code written to the inbound
connection equals the upstream status code, and the written headers hold
the three CORS headers with their fixed values, hold no hop-by-hop header
name, preserve every other upstream entry, and hold nothing beyond the
upstream entries and the CORS headers. -/
theorem proxied_response_headers (upstreamStatus : Nat) (upstreamHeaders : Headers) :
    (proxyWriteHead upstreamStatus upstreamHeaders).1 = upstreamStatus ∧
    ("Access-Control-Allow-Origin", "*") ∈ (proxyWriteHead upstreamStatus upstreamHeaders).2 ∧
    ("Access-Control-Allow-Methods", "GET, POST, PUT, DELETE, OPTIONS") ∈
      (proxyWriteHead upstreamStatus upstreamHeaders).2 ∧
    ("Access-Control-Allow-Headers", "Content-Type, Authorization") ∈
      (proxyWriteHead upstreamStatus upstreamHeaders).2 ∧
    (∀ kv, kv ∈ (proxyWriteHead upstreamStatus upstreamHeaders).2 →
      kv.1 ∉ HOP_BY_HOP_HEADERS) ∧
    (∀ kv, kv ∈ upstreamHeaders → kv.1 ∉ HOP_BY_HOP_HEADERS → kv.1 ∉ CORS_KEYS →
      kv ∈ (proxyWriteHead upstreamStatus upstreamHeaders).2) ∧
    (∀ kv, kv ∈ (proxyWriteHead upstreamStatus upstreamHeaders).2 →
      kv ∈ upstreamHeaders ∨ kv.1 ∈ CORS_KEYS) := by
  refine ⟨rfl, ?_, ?_, ?_, ?_, ?_, ?_⟩
  · exact mem_setHeader_of_ne _ _ _ _
      (mem_setHeader_of_ne _ _ _ _ (mem_setHeader_self _ _ _) (by decide)) (by decide)
  · exact mem_setHeader_of_ne _ _ _ _ (mem_setHeader_self _ _ _) (by decide)
  · exact mem_setHeader_self _ _ _
  · intro kv hmem
    rcases mem_of_mem_setHeader _ _ _ _ hmem with he | h₁
    · subst he; decide
    rcases mem_of_mem_setHeader _ _ _ _ h₁ with he | h₂
    · subst he; decide
    rcases mem_of_mem_setHeader _ _ _ _ h₂ with he | h₃
    · subst he; decide
    exact (sanitizeHeaders_spec upstreamHeaders).2.2 kv h₃
  · intro kv hmem hhop hcors
    have h₀ : kv ∈ sanitizeHeaders upstreamHeaders :=
      (sanitizeHeaders_spec upstreamHeaders).2.1 kv hmem hhop
    have hc : ∀ c ∈ CORS_KEYS, kv.1 ≠ c := fun c hc he => hcors (he ▸ hc)
    exact mem_setHeader_of_ne _ _ _ _
      (mem_setHeader_of_ne _ _ _ _
        (mem_setHeader_of_ne _ _ _ _ h₀ (hc _ (by decide)))
        (hc _ (by decide)))
      (hc _ (by decide))
  · intro kv hmem
    rcases mem_of_mem_setHeader _ _ _ _ hmem with he | h₁
    · exact Or.inr (by subst he; decide)
    rcases mem_of_mem_setHeader _ _ _ _ h₁ with he | h₂
    · exact Or.inr (by subst he; decide)
    rcases mem_of_mem_setHeader _ _ _ _ h₂ with he | h₃
    · exact Or.inr (by subst he; decide)
    exact Or.inl ((List.mem_filter.mp h₃).1)

/-- Witness for C7 at a concrete upstream response: an ordinary upstream
header is preserved in the written headers. -/
theorem proxied_response_headers_witness :
    ("content-type", "application/json") ∈
      (proxyWriteHead 200 [("connection", "close"), ("content-type", "application/json")]).2 :=
  (proxied_response_headers 200 [("connection", "close"), ("content-type", "application/json")]).2.2.2.2.2.1
    ("content-type", "application/json") (by decide) (by decide) (by decide)

/-- C6 counterexample: the "504 if and only if no response bytes written
yet" direction fails.  With the inbound connection already destroyed but no
bytes written (reachable when the client disconnects before the upstream
answers), a timeout aborts the outbound request yet writes no 504, even
though no response bytes have been written. -/
theorem timeout_504_not_iff :
    ((onProxyTimeout
        { res := { headersSent := false, destroyed := true, written := [] }
          proxyReqDestroyed := false }).res.written = []) ∧
    ((onProxyTimeout
        { res := { headersSent := false, destroyed := true, written := [] }
          proxyReqDestroyed := false }).proxyReqDestroyed = true) := by
  exact ⟨by decide, by decide⟩

/-- C6 (amended): on timeout the outbound connection is always aborted,
and a 504 (resp. 500 for an outbound connection error or an upstream
protocol error) is written exactly when headers have not been sent AND the
inbound connection is not destroyed; in every other case the handlers
leave the response untouched, writing no second status line. -/
theorem proxy_failure_responses (s : ProxyConn) :
    (onProxyTimeout s).proxyReqDestroyed = true ∧
    (s.res.headersSent = false ∧ s.res.destroyed = false →
      (onProxyTimeout s).res.written = s.res.written ++
        [{ statusCode := 504, headers := [("Content-Type", "text/plain")],
           body := "Gateway Timeout" }] ∧
      (onProxyReqError s).res.written = s.res.written ++
        [{ statusCode := 500, headers := [("Content-Type", "text/plain")],
           body := "Internal Server Error" }] ∧
      (onProxyResError s).res.written = s.res.written ++
        [{ statusCode := 500, headers := [("Content-Type", "text/plain")],
           body := "Internal Server Error" }]) ∧
    (s.res.headersSent = true ∨ s.res.destroyed = true →
      (onProxyTimeout s).res = s.res ∧
      (onProxyReqError s).res = s.res ∧
      (onProxyResError s).res = s.res) := by
  refine ⟨rfl, ?_, ?_⟩
  · rintro ⟨h₁, h₂⟩
    simp [onProxyTimeout, onProxyReqError, onProxyResError, sendError, h₁, h₂]
  · intro h
    rcases h with h | h <;>
      simp [onProxyTimeout, onProxyReqError, onProxyResError, sendError, h]

/-- Witness for C6 (amended) at a fresh response: the timeout handler
aborts the outbound request and writes exactly one 504 response. -/
theorem proxy_failure_responses_witness :
    (onProxyTimeout
        { res := { headersSent := false, destroyed := false, written := [] }
          proxyReqDestroyed := false }).res.written =
      [{ statusCode := 504, headers := [("Content-Type", "text/plain")],
         body := "Gateway Timeout" }] := by
  have h := ((proxy_failure_responses
      { res := { headersSent := false, destroyed := false, written := [] }
        proxyReqDestroyed := false }).2.1 ⟨rfl, rfl⟩).1
  simpa using h

/-- C9 counterexample: a second termination signal received while already
draining is not a no-op.  The unguarded handler schedules a second
forced-exit timer and issues a second close attempt, so the state after
two signals differs from the state after one. -/
theorem shutdown_signal_not_idempotent :
    runShutdown [ShutdownEvent.signal, ShutdownEvent.signal] ≠
      runShutdown [ShutdownEvent.signal] ∧
    (runShutdown [ShutdownEvent.signal, ShutdownEvent.signal]).pendingTimers = 2 ∧
    (runShutdown [ShutdownEvent.signal]).pendingTimers = 1 := by
  exact ⟨by decide, by decide, by decide⟩

/-- C9 (amended): a signal always puts the server in the draining state and
— lacking any re-entry guard — schedules one more forced-exit timer and one
more close attempt, so repeated signals accumulate rather than being
no-ops; a drain whose close callback fires without error still exits with
status 0, and a forced-exit timer firing exits with status 1. -/
theorem shutdown_signal_behavior (s : ShutdownState) (h : s.exitCode = none) :
    (stepShutdown s .signal).draining = true ∧
    (stepShutdown s .signal).pendingTimers = s.pendingTimers + 1 ∧
    (stepShutdown s .signal).pendingCloseCallbacks = s.pendingCloseCallbacks + 1 ∧
    (stepShutdown (stepShutdown s .signal) .closeOk).exitCode = some 0 ∧
    (stepShutdown (stepShutdown s .signal) .timerFire).exitCode = some 1 := by
  refine ⟨?_, ?_, ?_, ?_, ?_⟩ <;> simp [stepShutdown, h]

/-- Witness for C9 (amended) from the initial state: a signal followed by a
normal close completion exits with status 0. -/
theorem shutdown_signal_behavior_witness :
    (stepShutdown (stepShutdown initialShutdownState .signal) .closeOk).exitCode = some 0 :=
  (shutdown_signal_behavior initialShutdownState rfl).2.2.2.1

/-- Classification when the gateway scan matches: the request is proxied to
the matched gateway with the stripped remainder. -/
theorem classify_of_findGateway_some (method requestHost referrer path g tp : String)
    (hm : method ≠ "OPTIONS")
    (hhost : lookup HOST_CONFIG requestHost = some referrer)
    (hfg : findGateway PAYMENT_GATEWAYS (pathnameOf path) = some g)
    (hsub : jsSubstring path ("/".length + g.length + "/".length - 1) = tp)
    (hsw : strStartsWith tp "/" = true) :
    classify method (some requestHost) path = Route.gatewayProxy g tp referrer := by
  obtain ⟨h0, hr⟩ := lookup_HOST_CONFIG_spec hhost
  have hv : jsGet HOST_CONFIG requestHost = JsValue.str referrer := by
    simp [jsGet, hhost]
  have ht : (JsValue.str referrer).truthy = true := by
    simp [JsValue.truthy, hr]
  simp [classify, hm, h0, hv, ht, JsValue.coerceString, hfg, hsub, hsw]

/-- Classification when the gateway scan fails and the host has a redirect
entry: the request is redirected to the base joined with the original
path. -/
theorem classify_of_findGateway_none (method requestHost referrer base path : String)
    (hm : method ≠ "OPTIONS")
    (hhost : lookup HOST_CONFIG requestHost = some referrer)
    (hfg : findGateway PAYMENT_GATEWAYS (pathnameOf path) = none)
    (hred : lookup REDIRECTION_MAP requestHost = some base) :
    classify method (some requestHost) path = Route.redirect (base ++ path) := by
  obtain ⟨h0, hr⟩ := lookup_HOST_CONFIG_spec hhost
  have hb : base ≠ "" := lookup_REDIRECTION_MAP_nonempty hred
  have hv : jsGet HOST_CONFIG requestHost = JsValue.str referrer := by
    simp [jsGet, hhost]
  have ht : (JsValue.str referrer).truthy = true := by
    simp [JsValue.truthy, hr]
  have hv2 : jsGet REDIRECTION_MAP requestHost = JsValue.str base := by
    simp [jsGet, hred]
  have ht2 : (JsValue.str base).truthy = true := by
    simp [JsValue.truthy, hb]
  simp [classify, hm, h0, hv, ht, hv2, ht2, JsValue.coerceString, hfg]

/-- C8: a non-OPTIONS request from a known host whose path matches no
gateway prefix and whose host has a redirect entry is answered with a 302
redirect whose `Location` is the redirect base joined with the original
path-and-query, with `Content-Type: text/plain`, the CORS allow-origin
header, and a short human-readable body. -/
theorem redirect_fallback (method requestHost path referrer targetBaseUrl : String)
    (hm : method ≠ "OPTIONS")
    (hhost : lookup HOST_CONFIG requestHost = some referrer)
    (hgw : findGateway PAYMENT_GATEWAYS (pathnameOf path) = none)
    (hred : lookup REDIRECTION_MAP requestHost = some targetBaseUrl) :
    classify method (some requestHost) path = Route.redirect (targetBaseUrl ++ path) ∧
    handleRedirect (targetBaseUrl ++ path) =
      { statusCode := 302
        headers := [("Location", targetBaseUrl ++ path), ("Content-Type", "text/plain"),
                    ("Access-Control-Allow-Origin", "*")]
        body := "Redirecting to " ++ (targetBaseUrl ++ path) } :=
  ⟨classify_of_findGateway_none method requestHost referrer targetBaseUrl path hm
      hhost hgw hred,
    rfl⟩

/-- Witness for C8 at the spec's concrete scenario: `GET /dashboard` from
`pay.v2-domain.com` is redirected to the redirect base plus the path. -/
theorem redirect_fallback_witness :
    classify "GET" (some "pay.v2-domain.com") "/dashboard" =
      Route.redirect ("https://api.myapp.com" ++ "/dashboard") :=
  (redirect_fallback "GET" "pay.v2-domain.com" "/dashboard" "https://v1-domain.com/"
    "https://api.myapp.com" (by decide) (by decide) (by decide) (by decide)).1

/-- C1 counterexample: the bare path `/vandar` (a configured gateway key
with no trailing content) is NOT classified as a gateway proxy with
remainder `/`; the prefix test requires a trailing slash, so the request
falls through to the redirect rule. -/
theorem bare_gateway_path_not_proxied :
    classify "POST" (some "pay.v1-domain.com") "/vandar" =
      Route.redirect "https://api.myapp.com/vandar" ∧
    classify "POST" (some "pay.v1-domain.com") "/vandar" ≠
      Route.gatewayProxy "vandar" "/" "https://v1-domain.com/" :=
  ⟨by decide, by decide⟩

/-- C1 (amended): for every configured gateway key `k`, known host and
suffix `p`, the path `/k/p` is classified as `GatewayProxy k ("/" ++ p)`
with the host's referrer (prefix stripped, leading slash kept); the path
`/k/` (trailing slash, empty remainder) yields remainder `/`; the bare
path `/k` does not match the gateway rule and instead falls through to the
redirect rule. -/
theorem gateway_prefix_classification (method requestHost referrer p k : String)
    (hk : k ∈ PAYMENT_GATEWAYS.map Prod.fst)
    (hm : method ≠ "OPTIONS")
    (hhost : lookup HOST_CONFIG requestHost = some referrer) :
    classify method (some requestHost) ("/" ++ k ++ "/" ++ p) =
      Route.gatewayProxy k ("/" ++ p) referrer ∧
    classify method (some requestHost) ("/" ++ k ++ "/") =
      Route.gatewayProxy k "/" referrer ∧
    (∀ base, lookup REDIRECTION_MAP requestHost = some base →
      classify method (some requestHost) ("/" ++ k) =
        Route.redirect (base ++ ("/" ++ k))) := by
  obtain ⟨pd⟩ := p
  have hk2 : k = "vandar" ∨ k = "zibal" ∨ k = "zarinpal" := by
    simpa [PAYMENT_GATEWAYS] using hk
  rcases hk2 with hk2 | hk2 | hk2 <;> subst hk2 <;> refine ⟨?_, ?_, ?_⟩
  · rw [show ("/" ++ "vandar" ++ "/" ++ (⟨pd⟩ : String)) =
        ⟨'/' :: 'v' :: 'a' :: 'n' :: 'd' :: 'a' :: 'r' :: '/' ::pd⟩ from rfl,
      show ("/" ++ (⟨pd⟩ : String)) = ⟨'/' ::pd⟩ from rfl]
    exact classify_of_findGateway_some method requestHost referrer _ _ _ hm hhost
      (by simp [findGateway, strStartsWith, pathnameOf, List.isPrefixOf_cons₂]) rfl
      (by simp [strStartsWith, List.isPrefixOf_cons₂])
  · rw [show ("/" ++ "vandar" ++ "/" : String) = "/vandar/" from rfl]
    exact classify_of_findGateway_some method requestHost referrer _ _ _ hm hhost
      (by decide) (by decide) (by decide)
  · intro base hred
    rw [show ("/" ++ "vandar" : String) = "/vandar" from rfl]
    exact classify_of_findGateway_none method requestHost referrer base _ hm hhost
      (by decide) hred
  · rw [show ("/" ++ "zibal" ++ "/" ++ (⟨pd⟩ : String)) =
        ⟨'/' :: 'z' :: 'i' :: 'b' :: 'a' :: 'l' :: '/' ::pd⟩ from rfl,
      show ("/" ++ (⟨pd⟩ : String)) = ⟨'/' ::pd⟩ from rfl]
    exact classify_of_findGateway_some method requestHost referrer _ _ _ hm hhost
      (by simp [findGateway, strStartsWith, pathnameOf, List.isPrefixOf_cons₂]) rfl
      (by simp [strStartsWith, List.isPrefixOf_cons₂])
  · rw [show ("/" ++ "zibal" ++ "/" : String) = "/zibal/" from rfl]
    exact classify_of_findGateway_some method requestHost referrer _ _ _ hm hhost
      (by decide) (by decide) (by decide)
  · intro base hred
    rw [show ("/" ++ "zibal" : String) = "/zibal" from rfl]
    exact classify_of_findGateway_none method requestHost referrer base _ hm hhost
      (by decide) hred
  · rw [show ("/" ++ "zarinpal" ++ "/" ++ (⟨pd⟩ : String)) =
        ⟨'/' :: 'z' :: 'a' :: 'r' :: 'i' :: 'n' :: 'p' :: 'a' :: 'l' :: '/' ::pd⟩ from rfl,
      show ("/" ++ (⟨pd⟩ : String)) = ⟨'/' ::pd⟩ from rfl]
    exact classify_of_findGateway_some method requestHost referrer _ _ _ hm hhost
      (by simp [findGateway, strStartsWith, pathnameOf, List.isPrefixOf_cons₂]) rfl
      (by simp [strStartsWith, List.isPrefixOf_cons₂])
  · rw [show ("/" ++ "zarinpal" ++ "/" : String) = "/zarinpal/" from rfl]
    exact classify_of_findGateway_some method requestHost referrer _ _ _ hm hhost
      (by decide) (by decide) (by decide)
  · intro base hred
    rw [show ("/" ++ "zarinpal" : String) = "/zarinpal" from rfl]
    exact classify_of_findGateway_none method requestHost referrer base _ hm hhost
      (by decide) hred

/-- Witness for C1 (amended) at the spec's end-to-end scenario:
`POST /vandar/v1/ipgs` from the first configured host is proxied to the
`vandar` gateway with remainder `/v1/ipgs`. -/
theorem gateway_prefix_classification_witness :
    classify "POST" (some "pay.v1-domain.com") ("/" ++ "vandar" ++ "/" ++ "v1/ipgs") =
      Route.gatewayProxy "vandar" ("/" ++ "v1/ipgs") "https://v1-domain.com/" :=
  (gateway_prefix_classification "POST" "pay.v1-domain.com" "https://v1-domain.com/"
    "v1/ipgs" "vandar" (by decide) (by decide) (by decide)).1

end PaymentProxy
